import Mathlib

/-!
Verification of the call-handling backend (vapi webhook event router, call
ledger, transcript sequencer, booking bridge, daily digest scheduler).

Shallow embedding conventions:
* instants are integers counting seconds since the Unix epoch (the JS source
  works in milliseconds; only the scale differs);
* a JS `undefined` reached through optional chaining is `Option.none`;
* a JSON payload field is `JField α = Option (Option α)`: `none` means the key
  is absent (JS `undefined` values are dropped by serialization), `some none`
  means the key is present with value `null`, `some (some v)` is a value;
* an IANA timezone is interpreted by an environment `zones : String → Tz`
  where `Tz` gives the UTC offset (in minutes) at each instant, which is what
  the `Intl.DateTimeFormat` calls in the source observe.
-/

namespace MCR

/-! ## Gregorian calendar arithmetic (model of the JS Date / Intl machinery)

`daysFromCivil` and `civilFromDays` are the standard civil-calendar
conversions used by every date library; they model `Date.UTC` and
`Intl.DateTimeFormat(...).formatToParts` from src/api/cron/daily-digest.js. -/

structure Civil where
  year : Int
  month : Int
  day : Int
  hour : Int
  minute : Int
  second : Int
deriving DecidableEq, Repr

/-- Days since 1970-01-01 of a civil date (proleptic Gregorian). -/
def daysFromCivil (y m d : Int) : Int :=
  let y2 := if m ≤ 2 then y - 1 else y
  let era := Int.fdiv y2 400
  let yoe := y2 - era * 400
  let mp := if m > 2 then m - 3 else m + 9
  let doy := Int.fdiv (153 * mp + 2) 5 + d - 1
  let doe := yoe * 365 + Int.fdiv yoe 4 - Int.fdiv yoe 100 + doy
  era * 146097 + doe - 719468

/-- Civil date of a count of days since 1970-01-01 (proleptic Gregorian). -/
def civilFromDays (z0 : Int) : Int × Int × Int :=
  let z := z0 + 719468
  let era := Int.fdiv z 146097
  let doe := z - era * 146097
  let yoe := Int.fdiv (doe - Int.fdiv doe 1460 + Int.fdiv doe 36524 - Int.fdiv doe 146096) 365
  let y := yoe + era * 400
  let doy := doe - (365 * yoe + Int.fdiv yoe 4 - Int.fdiv yoe 100)
  let mp := Int.fdiv (5 * doy + 2) 153
  let d := doy - Int.fdiv (153 * mp + 2) 5 + 1
  let m := if mp < 10 then mp + 3 else mp - 9
  (if m ≤ 2 then y + 1 else y, m, d)

/-- Split an epoch instant (UTC) into its civil components. -/
def epochToCivil (t : Int) : Civil :=
  let days := Int.fdiv t 86400
  let secs := t - 86400 * days
  let ymd := civilFromDays days
  { year := ymd.1, month := ymd.2.1, day := ymd.2.2
    hour := Int.fdiv secs 3600
    minute := Int.fdiv (secs - 3600 * Int.fdiv secs 3600) 60
    second := secs - 60 * Int.fdiv secs 60 }

/-- Epoch instant of civil components taken as UTC (model of `Date.UTC`). -/
def civilToEpoch (c : Civil) : Int :=
  86400 * daysFromCivil c.year c.month c.day + 3600 * c.hour + 60 * c.minute + c.second

/-- A timezone: UTC offset in minutes as a function of the UTC instant
(local wall clock = utc + 60 * off utc).  This is the information the source
extracts from `Intl.DateTimeFormat` for a named zone. -/
structure Tz where
  off : Int → Int

/-- Model of `getTimeZoneParts(date, timeZone)` (daily-digest.js): the local
wall-clock components of a UTC instant in a zone. -/
def getTimeZoneParts (tz : Tz) (t : Int) : Civil :=
  epochToCivil (t + 60 * tz.off t)

/-- Model of `getTimeZoneOffset(date, timeZone)` (daily-digest.js): re-read
the local parts as if they were UTC and subtract. Seconds, not ms. -/
def getTimeZoneOffset (tz : Tz) (t : Int) : Int :=
  civilToEpoch (getTimeZoneParts tz t) - t

/-- Model of `zonedTimeToUtc(timeZone, parts)` (daily-digest.js): single
fixed-point iteration starting from the naive UTC guess. -/
def zonedTimeToUtc (tz : Tz) (c : Civil) : Int :=
  let utcGuess := civilToEpoch c
  utcGuess - getTimeZoneOffset tz utcGuess

structure LocalDate where
  year : Int
  month : Int
  day : Int
deriving DecidableEq, Repr

/-- Model of `getLocalDateKey(date, timeZone)` (daily-digest.js): the local
calendar date of an instant (the source renders it as a "YYYY-MM-DD" string;
component equality coincides with string equality). -/
def getLocalDateKey (tz : Tz) (t : Int) : LocalDate :=
  let p := getTimeZoneParts tz t
  ⟨p.year, p.month, p.day⟩

structure UtcRange where
  startUtc : Int
  endUtc : Int
deriving DecidableEq, Repr

/-- Model of `getPreviousDayRangeUtc(timeZone)` (daily-digest.js): endUtc is
the zone-converted instant of today's local midnight, startUtc is a fixed 24
hours earlier (the `label` field, a formatted date string, is omitted). -/
def getPreviousDayRangeUtc (tz : Tz) (now : Int) : UtcRange :=
  let parts := getTimeZoneParts tz now
  let endUtc := zonedTimeToUtc tz
    { year := parts.year, month := parts.month, day := parts.day
      hour := 0, minute := 0, second := 0 }
  let startUtc := endUtc - 86400
  ⟨startUtc, endUtc⟩

/-! ## JS helpers -/

/-- Model of the JS `x || fallback` idiom on an optional string: the empty
string is falsy. -/
def jsOrStr (v : Option String) (fallback : String) : String :=
  match v with
  | some s => if s = "" then fallback else s
  | none => fallback

/-- Model of JS `Number(s)` restricted to what the digest time format uses;
`Number("") = 0`, non-numeric input gives NaN (`none`). -/
def jsNumber (s : String) : Option Int :=
  if s = "" then some 0 else s.toInt?

/-! ## Tenant / business record (columns of `businesses` read by the core) -/

structure Business where
  id : String := ""
  name : String := ""
  email : Option String := none
  phone_number : Option String := none
  active : Bool := true
  timezone : Option String := none
  calcom_enabled : Bool := false
  calcom_access_token : Option String := none
  calcom_refresh_token : Option String := none
  calcom_token_expires_at : Option Int := none
  calcom_event_type_id : Option Int := none
  digest_enabled : Bool := true
  digest_time_local : Option String := none
  digest_timezone : Option String := none
  last_digest_sent_at : Option Int := none
deriving DecidableEq, Repr

/-- The effective timezone name for the digest:
`business.digest_timezone || business.timezone || 'America/New_York'`. -/
def effectiveTimeZoneName (b : Business) : String :=
  jsOrStr b.digest_timezone (jsOrStr b.timezone "America/New_York")

/-- Parse "HH:MM": `digestTime.split(':').map(Number)` destructured into the
first two parts, rejected when either is NaN (`Number.isFinite` check). -/
def parseDigestTime (s : String) : Option (Int × Int) :=
  match (s.splitOn ":").map jsNumber with
  | some h :: some m :: _ => some (h, m)
  | _ => none

/-- Model of `shouldSendDigestNow(business, timeZone)` (daily-digest.js):
the local wall-clock HH:MM must equal the configured digest time and the
local calendar date of `last_digest_sent_at` must differ from today's. -/
def shouldSendDigestNow (tz : Tz) (b : Business) (now : Int) : Bool :=
  match parseDigestTime (jsOrStr b.digest_time_local "08:00") with
  | none => false
  | some (th, tm) =>
    let parts := getTimeZoneParts tz now
    if parts.hour = th ∧ parts.minute = tm then
      match b.last_digest_sent_at with
      | none => true
      | some last => decide (getLocalDateKey tz last ≠ getLocalDateKey tz now)
    else false

/-- Model of `markDigestSent(businessId)` (daily-digest.js): set
`last_digest_sent_at` to the current instant. -/
def markDigestSent (b : Business) (now : Int) : Business :=
  { b with last_digest_sent_at := some now }

/-- One scheduler tick for one tenant (the per-business loop body of the cron
module): skip unless `shouldSendDigestNow`; `preOk` models the calls query
succeeding and a recipient email resolving, `emailOk` models a confirmed
successful send.  Only a successful send marks `last_digest_sent_at`.
Returns the updated business row and whether an email was sent. -/
def digestTick (zones : String → Tz) (b : Business) (now : Int)
    (preOk emailOk : Bool) : Business × Bool :=
  let tz := zones (effectiveTimeZoneName b)
  if shouldSendDigestNow tz b now then
    if preOk then
      if emailOk then (markDigestSent b now, true) else (b, false)
    else (b, false)
  else (b, false)

/-- Sequential scheduler ticks for one tenant: each list entry is
(tick instant, preOk, emailOk).  Returns the final business row and the
number of digest emails sent. -/
def runDigestTicks (zones : String → Tz) : Business → List (Int × Bool × Bool) → Business × Nat
  | b, [] => (b, 0)
  | b, x :: rest =>
    let step := digestTick zones b x.1 x.2.1 x.2.2
    let restOut := runDigestTicks zones step.1 rest
    (restOut.1, (if step.2 then 1 else 0) + restOut.2)

/-! ## Call ledger (src/lib/supabase.js `upsertCall`, `calls` table)

`upsertCall` is a PostgREST upsert with `onConflict: 'vapi_call_id'`:
an INSERT of the payload that, on a conflicting `vapi_call_id`, updates
exactly the columns present in the payload (JSON `null` included) and leaves
absent columns untouched.  Keys whose JS value is `undefined` are dropped by
serialization before the request. -/

/-- A JSON payload field: absent / present-null / present-value. -/
abbrev JField (α : Type) : Type := Option (Option α)

/-- Lift an optional-chained JS value into a payload field: `undefined` is
dropped (absent), a value is sent. -/
def jfieldOfOpt (v : Option α) : JField α := v.map some

/-- The webhook event's `call` object (optional chains flattened:
`call?.phoneNumber?.number` is the `phoneNumber` field here). -/
structure CallInfo where
  id : Option String := none
  phoneNumber : Option String := none
  customer : Option String := none
  startedAt : Option Int := none
  endedAt : Option Int := none
  duration : Option Int := none
deriving DecidableEq, Repr

/-- The end-of-call report's `analysis` object. -/
structure Analysis where
  sentiment : Option String := none
  intent : Option String := none
deriving DecidableEq, Repr

/-- The `metadata` jsonb column contents, one shape per handler. -/
inductive Meta where
  | vapiCall (call : CallInfo)
  | vapiStatus (status : Option String)
  | vapiAnalysis (analysis : Option Analysis) (call : CallInfo)
deriving DecidableEq, Repr

/-- A stored `calls` row (the columns the webhook handlers touch; every column
is modelled as nullable, with the schema defaults applied on insert). -/
structure CallRow where
  business_id : Option String := none
  vapi_call_id : Option String := none
  customer_phone : Option String := none
  from_phone : Option String := none
  to_phone : Option String := none
  status : Option String := some "queued"
  direction : Option String := some "inbound"
  started_at : Option Int := none
  ended_at : Option Int := none
  duration_seconds : Option Int := none
  ended_reason : Option String := none
  recording_url : Option String := none
  full_transcript : Option String := none
  summary : Option String := none
  sentiment : Option String := none
  intent : Option String := none
  metadata : Option Meta := none
deriving DecidableEq, Repr

/-- An `upsertCall` payload (`callData` in the source). -/
structure CallPayload where
  business_id : JField String := none
  vapi_call_id : JField String := none
  customer_phone : JField String := none
  from_phone : JField String := none
  to_phone : JField String := none
  status : JField String := none
  direction : JField String := none
  started_at : JField Int := none
  ended_at : JField Int := none
  duration_seconds : JField Int := none
  ended_reason : JField String := none
  recording_url : JField String := none
  full_transcript : JField String := none
  summary : JField String := none
  sentiment : JField String := none
  intent : JField String := none
  metadata : JField Meta := none
deriving DecidableEq, Repr

/-- ON CONFLICT DO UPDATE semantics: every column present in the payload
(nulls included) overwrites the stored column; absent columns are kept. -/
def mergeRow (r : CallRow) (p : CallPayload) : CallRow :=
  { business_id := p.business_id.getD r.business_id
    vapi_call_id := p.vapi_call_id.getD r.vapi_call_id
    customer_phone := p.customer_phone.getD r.customer_phone
    from_phone := p.from_phone.getD r.from_phone
    to_phone := p.to_phone.getD r.to_phone
    status := p.status.getD r.status
    direction := p.direction.getD r.direction
    started_at := p.started_at.getD r.started_at
    ended_at := p.ended_at.getD r.ended_at
    duration_seconds := p.duration_seconds.getD r.duration_seconds
    ended_reason := p.ended_reason.getD r.ended_reason
    recording_url := p.recording_url.getD r.recording_url
    full_transcript := p.full_transcript.getD r.full_transcript
    summary := p.summary.getD r.summary
    sentiment := p.sentiment.getD r.sentiment
    intent := p.intent.getD r.intent
    metadata := p.metadata.getD r.metadata }

/-- INSERT semantics: present columns take their payload value (nulls
included), absent columns take the schema default. -/
def rowOfPayload (p : CallPayload) : CallRow :=
  { business_id := p.business_id.getD none
    vapi_call_id := p.vapi_call_id.getD none
    customer_phone := p.customer_phone.getD none
    from_phone := p.from_phone.getD none
    to_phone := p.to_phone.getD none
    status := p.status.getD (some "queued")
    direction := p.direction.getD (some "inbound")
    started_at := p.started_at.getD none
    ended_at := p.ended_at.getD none
    duration_seconds := p.duration_seconds.getD none
    ended_reason := p.ended_reason.getD none
    recording_url := p.recording_url.getD none
    full_transcript := p.full_transcript.getD none
    summary := p.summary.getD none
    sentiment := p.sentiment.getD none
    intent := p.intent.getD none
    metadata := p.metadata.getD none }

/-- Walk the table and merge the payload into the first row whose
`vapi_call_id` equals the payload's; insert when no row conflicts. -/
def upsertRows (id : String) (p : CallPayload) : List CallRow → List CallRow
  | [] => [rowOfPayload p]
  | r :: rs =>
    if r.vapi_call_id = some id then mergeRow r p :: rs
    else r :: upsertRows id p rs

/-- Model of `upsertCall(callData)` (src/lib/supabase.js): upsert keyed on
`vapi_call_id`; a payload without a non-null `vapi_call_id` never conflicts
and is inserted as a fresh row. -/
def upsertCall (table : List CallRow) (p : CallPayload) : List CallRow :=
  match p.vapi_call_id with
  | some (some id) => upsertRows id p table
  | _ => table ++ [rowOfPayload p]

/-! ## Webhook payload builders (src/api/vapi-webhook.js) -/

/-- Model of the JS `x || 'unknown'` fallback on an optional phone string. -/
def jsOrUnknown (v : Option String) : String := jsOrStr v "unknown"

/-- Model of `x || null` on an optional number (`0` is falsy). -/
def jsOrNullInt (v : Option Int) : Option Int :=
  match v with
  | some n => if n = 0 then none else some n
  | none => none

/-- Model of `x || null` on an optional string (`""` is falsy). -/
def jsOrNullStr (v : Option String) : Option String :=
  match v with
  | some s => if s = "" then none else some s
  | none => none

/-- Model of `mapVapiStatus(vapiStatus)` (vapi-webhook.js): the status map
with fall-through to the raw provider status. -/
def mapVapiStatus (s : String) : String :=
  if s = "queued" then "queued"
  else if s = "ringing" then "ringing"
  else if s = "in-progress" then "in-progress"
  else if s = "forwarding" then "in-progress"
  else if s = "ended" then "completed"
  else s

/-- Character-list test used to model JS `String.prototype.includes`. -/
def startsWithChars : List Char → List Char → Bool
  | _, [] => true
  | [], _ :: _ => false
  | c :: cs, d :: ds => c == d && startsWithChars cs ds

/-- Substring occurrence over character lists. -/
def hasSubChars (pat : List Char) : List Char → Bool
  | [] => startsWithChars [] pat
  | c :: rest => startsWithChars (c :: rest) pat || hasSubChars pat rest

/-- Model of JS `text.includes(pat)`. -/
def strIncludes (s pat : String) : Bool := hasSubChars pat.data s.data

/-- Model of `extractIntent(summary, transcript)` (vapi-webhook.js): keyword
matching over the lower-cased concatenation. -/
def extractIntent (summary transcript : Option String) : String :=
  let text := ((jsOrStr summary "") ++ " " ++ (jsOrStr transcript "")).toLower
  if strIncludes text "appointment" || strIncludes text "schedule" || strIncludes text "book" then
    "booking"
  else if strIncludes text "question" || strIncludes text "information" || strIncludes text "how" then
    "inquiry"
  else if strIncludes text "problem" || strIncludes text "issue" || strIncludes text "complaint" then
    "complaint"
  else if strIncludes text "cancel" || strIncludes text "reschedule" then
    "modification"
  else "general"

/-- The `upsertCall` payload built by `handleAssistantRequest`. -/
def assistantRequestPayload (businessId : String) (call : CallInfo) : CallPayload :=
  { business_id := some (some businessId)
    vapi_call_id := jfieldOfOpt call.id
    customer_phone := jfieldOfOpt call.customer
    from_phone := some (some (jsOrUnknown call.customer))
    to_phone := some (some (jsOrUnknown call.phoneNumber))
    status := some (some "queued")
    direction := some (some "inbound")
    metadata := some (some (Meta.vapiCall call)) }

/-- The `upsertCall` payload built by `handleStatusUpdate`: note the mapped
status and the explicit `started_at: ... : null` ternary. -/
def statusUpdatePayload (businessId : String) (call : CallInfo) (status : Option String) :
    CallPayload :=
  { business_id := some (some businessId)
    vapi_call_id := jfieldOfOpt call.id
    customer_phone := jfieldOfOpt call.customer
    from_phone := some (some (jsOrUnknown call.customer))
    to_phone := some (some (jsOrUnknown call.phoneNumber))
    status := jfieldOfOpt (status.map mapVapiStatus)
    started_at := some call.startedAt
    metadata := some (some (Meta.vapiStatus status)) }

/-- The `upsertCall` payload built by `handleTranscript` (get-or-create). -/
def transcriptCallPayload (businessId : String) (call : CallInfo) : CallPayload :=
  { business_id := some (some businessId)
    vapi_call_id := jfieldOfOpt call.id
    customer_phone := jfieldOfOpt call.customer
    from_phone := some (some (jsOrUnknown call.customer))
    to_phone := some (some (jsOrUnknown call.phoneNumber)) }

/-- The `upsertCall` payload built by `handleEndOfCallReport` (finalization). -/
def endOfCallPayload (businessId : String) (call : CallInfo)
    (endedReason summary transcript recordingUrl : Option String)
    (analysis : Option Analysis) : CallPayload :=
  { business_id := some (some businessId)
    vapi_call_id := jfieldOfOpt call.id
    customer_phone := jfieldOfOpt call.customer
    from_phone := some (some (jsOrUnknown call.customer))
    to_phone := some (some (jsOrUnknown call.phoneNumber))
    status := some (some "completed")
    started_at := some call.startedAt
    ended_at := some call.endedAt
    duration_seconds := some (jsOrNullInt call.duration)
    ended_reason := jfieldOfOpt endedReason
    recording_url := jfieldOfOpt recordingUrl
    full_transcript := jfieldOfOpt transcript
    summary := jfieldOfOpt summary
    sentiment := some (jsOrNullStr (analysis.bind (·.sentiment)))
    intent := some (some (match jsOrNullStr (analysis.bind (·.intent)) with
      | some i => i
      | none => extractIntent summary transcript))
    metadata := some (some (Meta.vapiAnalysis analysis call)) }

/-- The terminal statuses of the call state machine (§4.2 of the spec and the
missed-status set of the digest). -/
def isTerminalStatus (s : String) : Bool :=
  s = "completed" || s = "failed" || s = "busy" || s = "no-answer"

/-! ## Field-indexed view of rows and payloads, for per-field merge laws. -/

/-- The columns shared by `CallRow` and `CallPayload`. -/
inductive CField where
  | business_id | vapi_call_id | customer_phone | from_phone | to_phone
  | status | direction | started_at | ended_at | duration_seconds
  | ended_reason | recording_url | full_transcript | summary
  | sentiment | intent | metadata
deriving DecidableEq, Repr

/-- A column value, wrapped per column type. -/
inductive FVal where
  | s (v : Option String)
  | i (v : Option Int)
  | m (v : Option Meta)
deriving DecidableEq, Repr

/-- Read one column of a stored row. -/
def rowField : CField → CallRow → FVal
  | .business_id, r => .s r.business_id
  | .vapi_call_id, r => .s r.vapi_call_id
  | .customer_phone, r => .s r.customer_phone
  | .from_phone, r => .s r.from_phone
  | .to_phone, r => .s r.to_phone
  | .status, r => .s r.status
  | .direction, r => .s r.direction
  | .started_at, r => .i r.started_at
  | .ended_at, r => .i r.ended_at
  | .duration_seconds, r => .i r.duration_seconds
  | .ended_reason, r => .s r.ended_reason
  | .recording_url, r => .s r.recording_url
  | .full_transcript, r => .s r.full_transcript
  | .summary, r => .s r.summary
  | .sentiment, r => .s r.sentiment
  | .intent, r => .s r.intent
  | .metadata, r => .m r.metadata

/-- Read one column of a payload: `none` when the key is absent, otherwise
the (possibly null) value it carries. -/
def payloadField : CField → CallPayload → Option FVal
  | .business_id, p => p.business_id.map (.s ·)
  | .vapi_call_id, p => p.vapi_call_id.map (.s ·)
  | .customer_phone, p => p.customer_phone.map (.s ·)
  | .from_phone, p => p.from_phone.map (.s ·)
  | .to_phone, p => p.to_phone.map (.s ·)
  | .status, p => p.status.map (.s ·)
  | .direction, p => p.direction.map (.s ·)
  | .started_at, p => p.started_at.map (.i ·)
  | .ended_at, p => p.ended_at.map (.i ·)
  | .duration_seconds, p => p.duration_seconds.map (.i ·)
  | .ended_reason, p => p.ended_reason.map (.s ·)
  | .recording_url, p => p.recording_url.map (.s ·)
  | .full_transcript, p => p.full_transcript.map (.s ·)
  | .summary, p => p.summary.map (.s ·)
  | .sentiment, p => p.sentiment.map (.s ·)
  | .intent, p => p.intent.map (.s ·)
  | .metadata, p => p.metadata.map (.m ·)

/-! ## Transcript sequencer (src/api/vapi-webhook.js `handleTranscript`,
src/lib/supabase.js `insertTranscript`)

The module-level `transcriptSequences` Map (keyed by `call?.id`) is modelled
as an association list; the stored `call_transcripts` rows keep the same key
(the DB row id of the call is in bijection with it via the unique
`vapi_call_id`). -/

/-- A stored `call_transcripts` row (the columns the webhook path writes). -/
structure TurnRow where
  callKey : Option String
  role : String
  text : Option String
  seq : Nat
deriving DecidableEq, Repr

/-- The webhook process state relevant to sequencing: the in-memory counter
map and the persisted transcript rows. -/
structure SeqState where
  seqMap : List (Option String × Nat) := []
  turns : List TurnRow := []
deriving DecidableEq, Repr

/-- `Map.get` on the counter map. -/
def seqLookup : List (Option String × Nat) → Option String → Option Nat
  | [], _ => none
  | e :: rest, k => if e.1 == k then some e.2 else seqLookup rest k

/-- `Map.set` on the counter map (replace or append). -/
def seqSet (m : List (Option String × Nat)) (k : Option String) (v : Nat) :
    List (Option String × Nat) :=
  match m with
  | [] => [(k, v)]
  | e :: rest => if e.1 == k then (k, v) :: rest else e :: seqSet rest k v

/-- A `transcript` webhook event (fields used by `handleTranscript`). -/
structure TranscriptEvent where
  call : CallInfo := {}
  role : Option String := none
  transcript : Option String := none
deriving DecidableEq, Repr

/-- Model of the sequencing body of `handleTranscript`: ensure the per-call
counter exists (initialized to 0), read it, bump it, and insert the turn with
the read value; the incoming role is stored as `user` exactly for `'user'`
and as `assistant` otherwise. -/
def handleTranscriptStep (st : SeqState) (ev : TranscriptEvent) : SeqState :=
  let key := ev.call.id
  let m0 := if (seqLookup st.seqMap key).isNone then seqSet st.seqMap key 0 else st.seqMap
  let seq := (seqLookup m0 key).getD 0
  let m1 := seqSet m0 key (seq + 1)
  { seqMap := m1
    turns := st.turns ++
      [{ callKey := key
         role := if ev.role == some "user" then "user" else "assistant"
         text := ev.transcript
         seq := seq }] }

/-- Sequential delivery of transcript events within one process lifetime. -/
def runTranscriptEvents (st : SeqState) : List TranscriptEvent → SeqState
  | [] => st
  | ev :: rest => runTranscriptEvents (handleTranscriptStep st ev) rest

/-- The sequence numbers stored for one call, in storage order. -/
def turnSeqs (turns : List TurnRow) (c : Option String) : List Nat :=
  (turns.filter (fun t => t.callKey == c)).map (·.seq)

/-- The current counter value for one call (0 before first use). -/
def seqCtr (st : SeqState) (c : Option String) : Nat :=
  (seqLookup st.seqMap c).getD 0

/-- The sequencing invariant: for every call, the stored sequence numbers are
exactly `0, 1, ..., ctr-1` in storage order. -/
def seqInv (st : SeqState) : Prop :=
  ∀ c, turnSeqs st.turns c = List.range (seqCtr st c)

/-- A list of turns all of whose roles are `user` or `assistant`. -/
def rolesOk (turns : List TurnRow) : Prop :=
  ∀ turn ∈ turns, turn.role = "user" ∨ turn.role = "assistant"

/-! ## Event router (src/api/vapi-webhook.js) — response behavior

The router model captures responses and the booking-provider side effect;
the database transitions of the same handlers are modelled above by the
payload builders and `upsertCall` / `handleTranscriptStep`. -/

/-- A JSON value as returned by the store client. -/
inductive JVal where
  | null
  | str (s : String)
  | num (n : Int)
deriving DecidableEq, Repr

/-- JS property read on an object: `none` is `undefined`. -/
def jsGet (o : List (String × JVal)) (k : String) : Option JVal :=
  (o.find? (fun e => e.1 == k)).map (·.2)

/-- JS truthiness of a possibly-undefined JSON value. -/
def jsTruthy : Option JVal → Bool
  | none => false
  | some .null => false
  | some (.str s) => s != ""
  | some (.num n) => n != 0

def jvalOfOptStr : Option String → JVal
  | some s => .str s
  | none => .null

def jvalOfOptInt : Option Int → JVal
  | some n => .num n
  | none => .null

/-- The store, as the webhook reads it. -/
structure Db where
  businesses : List Business := []
deriving Repr

/-- Model of `getBusinessByPhone(phoneNumber)` (src/lib/supabase.js): select
a single active business by phone; every error path yields `null`. -/
def getBusinessByPhone (db : Db) (phone : Option String) : Option Business :=
  match phone with
  | none => none
  | some p => db.businesses.find? (fun b => b.phone_number == some p && b.active)

/-- The record `getCalcomCredentials` selects: exactly the four
`calcom_`-prefixed column names. -/
def calcomCredentialsRow (b : Business) : List (String × JVal) :=
  [("calcom_access_token", jvalOfOptStr b.calcom_access_token),
   ("calcom_refresh_token", jvalOfOptStr b.calcom_refresh_token),
   ("calcom_token_expires_at", jvalOfOptInt b.calcom_token_expires_at),
   ("calcom_event_type_id", jvalOfOptInt b.calcom_event_type_id)]

/-- Model of `getCalcomCredentials(businessId)` (src/lib/supabase.js): the
returned record carries exactly the four selected column names, all
`calcom_`-prefixed (in the deployed schema these columns do not even exist on
`businesses`, which would make every call return `null`; the model is
charitable and returns the row the select list names). -/
def getCalcomCredentials (db : Db) (businessId : String) :
    Option (List (String × JVal)) :=
  (db.businesses.find? (fun b => b.id == businessId)).map calcomCredentialsRow

/-- The assistant configuration, reduced to its distinguishing structure:
which business the prompt/first message is personalized for, and which
function schemas are attached. -/
structure AssistantConfig where
  forBusiness : Option String
  functions : List String
deriving DecidableEq, Repr

/-- Model of `getDefaultAssistantConfig()`: generic copy, no functions. -/
def getDefaultAssistantConfig : AssistantConfig := ⟨none, []⟩

/-- Model of `getAssistantConfigWithBooking(business)`: personalized copy plus
the two booking function schemas. -/
def getAssistantConfigWithBooking (b : Business) : AssistantConfig :=
  ⟨some b.name, ["checkAvailability", "createBooking"]⟩

inductive RespBody where
  | assistant (cfg : AssistantConfig)
  | received
  | fnOk
  | fnError
  | methodNotAllowed
  | internalError
deriving DecidableEq, Repr

structure Response where
  status : Nat
  body : RespBody
deriving DecidableEq, Repr

/-- Failure oracle for the external calls a webhook invocation makes; `true`
means that call throws / reports failure. -/
structure Faults where
  upsertFails : Bool := false
  insertTranscriptFails : Bool := false
  availabilityFails : Bool := false
  refreshFails : Bool := false
  calcomFails : Bool := false
  dbBookingFails : Bool := false
deriving DecidableEq, Repr

/-- Booking function-call parameters; `dateTime` is the parsed instant of the
ISO string (`none` when absent or not a well-formed date). -/
structure FnParams where
  name : Option String := none
  email : Option String := none
  phone : Option String := none
  dateTime : Option Int := none
  notes : Option String := none
  date : Option String := none
  timePreference : Option String := none
deriving DecidableEq, Repr

structure FunctionCallInfo where
  name : Option String := none
  parameters : FnParams := {}
deriving DecidableEq, Repr

/-- A webhook event envelope's `message`. -/
structure VapiMessage where
  type : Option String := none
  call : Option CallInfo := none
  status : Option String := none
  transcript : Option String := none
  role : Option String := none
  functionCall : Option FunctionCallInfo := none
  endedReason : Option String := none
  summary : Option String := none
  recording : Option String := none
  analysis : Option Analysis := none
deriving Repr

/-- A POST body: either not an object (reading `event.message` throws) or an
object with an optional `message`. -/
inductive ReqBody where
  | notObject
  | object (message : Option VapiMessage)

/-- Outcome of `createCalcomBooking`: whether it returned normally, and
whether the scheduling provider's booking-creation endpoint
(`POST /bookings`) was reached. -/
structure CalcomOutcome where
  ok : Bool
  providerCalled : Bool
deriving DecidableEq, Repr

/-- Model of `createCalcomBooking(businessId, bookingData)` (lib/calcom.js):
fetch the credentials row and throw when it is missing (reading
`.calcom_event_type_id` of `null`) or when `calcom_event_type_id` is falsy;
then `calcomApiRequest` → `getValidAccessToken` throws when
`calcom_access_token` is falsy, refreshes a token that expires within five
minutes (`refreshFails` models that OAuth refresh call failing, which throws
before the bookings endpoint is reached), and finally POSTs the payload —
with `bookingData.start` passed through verbatim, never inspected — to
`/bookings`, where the provider may still reject (`providerFails`).  A stored
null expiry behaves as `new Date(null)`, the epoch. -/
def createCalcomBooking (db : Db) (now : Int) (businessId : String)
    (start : Option Int) (refreshFails providerFails : Bool) : CalcomOutcome :=
  match getCalcomCredentials db businessId with
  | none => ⟨false, false⟩
  | some creds =>
    if jsTruthy (jsGet creds "calcom_event_type_id") then
      if jsTruthy (jsGet creds "calcom_access_token") then
        let expiresEpoch : Option Int :=
          match jsGet creds "calcom_token_expires_at" with
          | some (.num e) => some e
          | some .null => some 0
          | some (.str _) => none
          | none => none
        let needsRefresh := match expiresEpoch with
          | some e => decide (e < now + 300)
          | none => false
        if needsRefresh && refreshFails then ⟨false, false⟩
        else if providerFails then ⟨false, true⟩
        else ⟨true, true⟩
      else ⟨false, false⟩
    else ⟨false, false⟩

/-- Model of `handleCreateBooking(business, call, parameters, res)`
(vapi-webhook.js): no local validation of `dateTime` — the parameters go
straight to `createCalcomBooking`; every thrown error is caught and answered
as a 200 `{ error: ... }`, a normal return as a 200 `{ result: ... }`.  The
second component records whether the scheduling provider's booking-creation
operation was invoked. -/
def handleCreateBooking (faults : Faults) (db : Db) (now : Int) (business : Business)
    (_call : Option CallInfo) (ps : FnParams) : Response × Bool :=
  let outcome :=
    createCalcomBooking db now business.id ps.dateTime faults.refreshFails faults.calcomFails
  if outcome.ok then
    if faults.upsertFails || faults.dbBookingFails then (⟨200, .fnError⟩, outcome.providerCalled)
    else (⟨200, .fnOk⟩, outcome.providerCalled)
  else (⟨200, .fnError⟩, outcome.providerCalled)

/-- Model of `handleFunctionCall(event, res)` (vapi-webhook.js): the
destructuring `const { name, parameters } = functionCall` happens before the
try block, so a missing `functionCall` throws out of the handler; inside the
try every error is caught and answered with a 200 `{ error }` / `{ result }`. -/
def handleFunctionCall (faults : Faults) (db : Db) (now : Int) (msg : VapiMessage) :
    Except Unit (Response × Bool) :=
  match msg.functionCall with
  | none => .error ()
  | some fc =>
    match getBusinessByPhone db (msg.call.bind (·.phoneNumber)) with
    | none => .ok (⟨200, .fnError⟩, false)
    | some business =>
      if fc.name == some "checkAvailability" then
        .ok (⟨200, if faults.availabilityFails then .fnError else .fnOk⟩, false)
      else if fc.name == some "createBooking" then
        .ok (handleCreateBooking faults db now business msg.call fc.parameters)
      else .ok (⟨200, .fnError⟩, false)

/-- Model of `handleAssistantRequest(event, res)` (vapi-webhook.js): resolve
the business, create the initial call record, then gate the booking
configuration on `calcomIntegration && calcomIntegration.access_token`; every
error is caught and answered with the default configuration. -/
def handleAssistantRequest (faults : Faults) (db : Db) (msg : VapiMessage) : Response :=
  match getBusinessByPhone db (msg.call.bind (·.phoneNumber)) with
  | none => ⟨200, .assistant getDefaultAssistantConfig⟩
  | some business =>
    if faults.upsertFails then ⟨200, .assistant getDefaultAssistantConfig⟩
    else
      let calcomIntegration := getCalcomCredentials db business.id
      let hasCalcom := match calcomIntegration with
        | none => false
        | some o => jsTruthy (jsGet o "access_token")
      ⟨200, .assistant (if hasCalcom then getAssistantConfigWithBooking business
                        else getDefaultAssistantConfig)⟩

/-- Model of `handleStatusUpdate(event, res)` (vapi-webhook.js): persistence
errors are caught and logged; the handler acknowledges in every branch. -/
def handleStatusUpdate (faults : Faults) (db : Db) (msg : VapiMessage) : Response :=
  match getBusinessByPhone db (msg.call.bind (·.phoneNumber)) with
  | none => ⟨200, .received⟩
  | some _business =>
    if faults.upsertFails then ⟨200, .received⟩ else ⟨200, .received⟩

/-- Model of `handleTranscript(event, res)` (vapi-webhook.js), response side:
persistence errors are caught and logged; acknowledges in every branch. -/
def handleTranscript (faults : Faults) (db : Db) (msg : VapiMessage) : Response :=
  match getBusinessByPhone db (msg.call.bind (·.phoneNumber)) with
  | none => ⟨200, .received⟩
  | some _business =>
    if faults.upsertFails || faults.insertTranscriptFails then ⟨200, .received⟩
    else ⟨200, .received⟩

/-- Model of `handleEndOfCallReport(event, res)` (vapi-webhook.js), response
side: persistence errors are caught and logged; acknowledges in every branch. -/
def handleEndOfCallReport (faults : Faults) (db : Db) (msg : VapiMessage) : Response :=
  match getBusinessByPhone db (msg.call.bind (·.phoneNumber)) with
  | none => ⟨200, .received⟩
  | some _business =>
    if faults.upsertFails then ⟨200, .received⟩ else ⟨200, .received⟩

/-- The router's outcome: the HTTP response plus whether the scheduling
provider's booking-creation operation was invoked during handling. -/
structure RouterOut where
  response : Response
  bookingProviderCalled : Bool
deriving DecidableEq, Repr

/-- Model of the module entry point (vapi-webhook.js `module.exports`):
method check, event-type dispatch, and the top-level catch that answers any
escaped exception with HTTP 500. -/
def vapiWebhook (faults : Faults) (db : Db) (now : Int) (method : String)
    (body : ReqBody) : RouterOut :=
  if method ≠ "POST" then ⟨⟨405, .methodNotAllowed⟩, false⟩
  else
    match body with
    | .notObject => ⟨⟨500, .internalError⟩, false⟩
    | .object msgOpt =>
      match msgOpt with
      | none => ⟨⟨200, .received⟩, false⟩
      | some msg =>
        let eventType := msg.type.getD "unknown"
        if eventType = "assistant-request" then ⟨handleAssistantRequest faults db msg, false⟩
        else if eventType = "status-update" then ⟨handleStatusUpdate faults db msg, false⟩
        else if eventType = "transcript" then ⟨handleTranscript faults db msg, false⟩
        else if eventType = "function-call" then
          match handleFunctionCall faults db now msg with
          | .ok out => ⟨out.1, out.2⟩
          | .error _ => ⟨⟨500, .internalError⟩, false⟩
        else if eventType = "end-of-call-report" then ⟨handleEndOfCallReport faults db msg, false⟩
        else ⟨⟨200, .received⟩, false⟩

/-! ## Concrete instances used by counterexamples, bug evaluations and
witnesses -/

/-- A call whose provider id and phones are known, started at instant 100. -/
def callA : CallInfo :=
  { id := some "call-1", phoneNumber := some "+15551234567"
    customer := some "+15557654321", startedAt := some 100 }

/-- The same call as reported by a later status event that carries no
`startedAt` (so the handler sends `started_at: null`). -/
def callA2 : CallInfo := { callA with startedAt := none }

/-- The stored table after a terminal status event (`ended` maps to
`completed`) followed by a non-terminal `in-progress` status event. -/
def termThenNonterm : List CallRow :=
  upsertCall (upsertCall [] (statusUpdatePayload "biz-1" callA (some "ended")))
    (statusUpdatePayload "biz-1" callA2 (some "in-progress"))

/-- America/New_York in March 2024: UTC offset −300 minutes (EST) before the
spring-forward instant 2024-03-10T07:00:00Z (epoch 1710054000), −240 minutes
(EDT) after. -/
def tzNewYork2024 : Tz := ⟨fun t => if t < 1710054000 then -300 else -240⟩

/-- A digest tick instant on the day after the 2024 spring-forward:
2024-03-11T12:00:00Z. -/
def dstTick : Int := 1710158400

/-- A business with the scheduling feature flag on and stored credentials. -/
def bizCalcom : Business :=
  { id := "b1", name := "Acme Dental", phone_number := some "+15551234567"
    active := true, calcom_enabled := true
    calcom_access_token := some "tok-123", calcom_refresh_token := some "ref-123"
    calcom_token_expires_at := some 32503680000, calcom_event_type_id := some 7 }

def dbCalcom : Db := { businesses := [bizCalcom] }

/-- An assistant-request envelope for `bizCalcom`'s phone number. -/
def assistantReqMsg : VapiMessage :=
  { type := some "assistant-request", call := some callA }

/-- A function-call envelope whose `functionCall` object is missing. -/
def malformedFnCallMsg : VapiMessage :=
  { type := some "function-call", call := some callA }

/-- A well-formed createBooking function-call envelope. -/
def fnCallW : FunctionCallInfo :=
  { name := some "createBooking"
    parameters := { name := some "Pat", email := some "pat@example.com", dateTime := some 500 } }

def fnCallMsgW : VapiMessage :=
  { type := some "function-call", call := some callA, functionCall := some fnCallW }

/-- A timezone environment where every zone is UTC, for witnesses. -/
def zonesUtc : String → Tz := fun _ => ⟨fun _ => 0⟩

/-- A digest-enabled business with the default send time. -/
def bizDigestW : Business := { id := "b2", digest_time_local := some "08:00" }

/-- Two ticks on 2024-01-15 (UTC): 08:00:00 and 08:01:00. -/
def ticksW : List (Int × Bool × Bool) :=
  [(1705305600, true, true), (1705305660, true, true)]

/-- A transcript event with a non-user role. -/
def transcriptEvW : TranscriptEvent :=
  { call := callA, role := some "bot", transcript := some "hello" }

/-- The turn `handleTranscriptStep` stores for `transcriptEvW` from a fresh
state. -/
def turnW : TurnRow :=
  { callKey := some "call-1", role := "assistant", text := some "hello", seq := 0 }

/-! ## Shared helper lemmas -/

/-- Absorption of `Option.getD` used by the upsert merge laws. -/
theorem opt_getD_getD (o : Option α) (x : α) : o.getD (o.getD x) = o.getD x := by
  cases o <;> rfl

/-- Merging the same payload twice equals merging it once. -/
theorem mergeRow_mergeRow (r : CallRow) (p : CallPayload) :
    mergeRow (mergeRow r p) p = mergeRow r p := by
  simp [mergeRow, opt_getD_getD]

/-- Merging a payload into the row it inserted is the identity. -/
theorem mergeRow_rowOfPayload (p : CallPayload) :
    mergeRow (rowOfPayload p) p = rowOfPayload p := by
  simp [mergeRow, rowOfPayload, opt_getD_getD]

/-- A keyed payload stamps its id on the merged row. -/
theorem mergeRow_vapi_call_id (r : CallRow) (p : CallPayload) (id : String)
    (h : p.vapi_call_id = some (some id)) : (mergeRow r p).vapi_call_id = some id := by
  simp [mergeRow, h]

/-- A keyed payload stamps its id on the inserted row. -/
theorem rowOfPayload_vapi_call_id (p : CallPayload) (id : String)
    (h : p.vapi_call_id = some (some id)) : (rowOfPayload p).vapi_call_id = some id := by
  simp [rowOfPayload, h]

/-- A payload with a non-null id takes the keyed branch of `upsertCall`. -/
theorem upsertCall_eq_upsertRows (t : List CallRow) (p : CallPayload) (id : String)
    (hid : p.vapi_call_id = some (some id)) : upsertCall t p = upsertRows id p t := by
  unfold upsertCall
  rw [hid]

/-- The keyed upsert walk is idempotent. -/
theorem upsertRows_upsertRows (id : String) (p : CallPayload)
    (h : p.vapi_call_id = some (some id)) (t : List CallRow) :
    upsertRows id p (upsertRows id p t) = upsertRows id p t := by
  induction t with
  | nil =>
    simp [upsertRows, rowOfPayload_vapi_call_id p id h, mergeRow_rowOfPayload]
  | cons r rs ih =>
    by_cases hr : r.vapi_call_id = some id
    · simp [upsertRows, hr, mergeRow_vapi_call_id r p id h, mergeRow_mergeRow]
    · simp [upsertRows, hr, ih]

/-! ## C1 — terminal status is not protected: status is last-writer-wins -/

/-- C1 counterexample: after an applied update set the stored status to the
terminal value `completed` (provider status `ended`), a later update carrying
the non-terminal status `in-progress` overwrites it, so the stored status is
a non-terminal value after a terminal one was applied. -/
theorem upsertCall_status_regression :
    (statusUpdatePayload "biz-1" callA (some "ended")).status = some (some "completed") ∧
    isTerminalStatus "completed" = true ∧
    isTerminalStatus "in-progress" = false ∧
    termThenNonterm.map (fun r => r.status) = [some "in-progress"] :=
  ⟨rfl, rfl, rfl, rfl⟩

/-- C1 as amended: `upsertCall` applies last-writer-wins to `status` like any
other supplied column — after an upsert whose payload carries status `s` and
call id `id`, the stored row for `id` has status `s`, regardless of whether
the previously stored status was terminal; there is no terminal-status
guard. -/
theorem upsertCall_status_last_writer_wins (t : List CallRow) (p : CallPayload)
    (id s : String) (hid : p.vapi_call_id = some (some id))
    (hs : p.status = some (some s)) :
    ∃ r, (upsertCall t p).find? (fun r => r.vapi_call_id == some id) = some r ∧
      r.status = some s := by
  rw [upsertCall_eq_upsertRows t p id hid]
  induction t with
  | nil =>
    refine ⟨rowOfPayload p, ?_, by simp [rowOfPayload, hs]⟩
    show List.find? _ [rowOfPayload p] = some (rowOfPayload p)
    exact List.find?_cons_of_pos _ (by simp [rowOfPayload_vapi_call_id p id hid])
  | cons r rs ih =>
    by_cases hr : r.vapi_call_id = some id
    · refine ⟨mergeRow r p, ?_, by simp [mergeRow, hs]⟩
      have hrw : upsertRows id p (r :: rs) = mergeRow r p :: rs := by
        simp [upsertRows, hr]
      rw [hrw]
      exact List.find?_cons_of_pos _ (by simp [mergeRow_vapi_call_id r p id hid])
    · obtain ⟨r', hfind, hst⟩ := ih
      refine ⟨r', ?_, hst⟩
      have hrw : upsertRows id p (r :: rs) = r :: upsertRows id p rs := by
        simp [upsertRows, hr]
      rw [hrw, List.find?_cons_of_neg _ (by simp [hr])]
      exact hfind

/-- C1 witness: the amended theorem applied at an empty table and the
concrete `in-progress` status update. -/
theorem upsertCall_status_last_writer_wins_witness :
    ∃ r, (upsertCall [] (statusUpdatePayload "biz-1" callA (some "in-progress"))).find?
        (fun r => r.vapi_call_id == some "call-1") = some r ∧
      r.status = some "in-progress" :=
  upsertCall_status_last_writer_wins [] _ "call-1" "in-progress" rfl rfl

/-! ## C4 — merge is per supplied column, and explicit nulls overwrite -/

/-- C4 counterexample: `handleStatusUpdate` sends `started_at: null` when the
event carries no `startedAt`; the explicit null is a present payload column
and overwrites the stored value, so a null field does not leave the stored
value unchanged. -/
theorem upsertCall_null_overwrites :
    (upsertCall [] (statusUpdatePayload "biz-1" callA (some "ended"))).map
        (fun r => r.started_at) = [some 100] ∧
    (statusUpdatePayload "biz-1" callA2 (some "in-progress")).started_at = some none ∧
    termThenNonterm.map (fun r => r.started_at) = [none] :=
  ⟨rfl, rfl, rfl⟩

/-- C4 as amended: the upsert merges the payload into the stored row with
that call id (or inserts when none conflicts), and per column: a column
absent from the payload keeps the stored value, while a column present in the
payload — whether carrying a value or an explicit null — overwrites it. -/
theorem upsertCall_merge_per_supplied_field (t : List CallRow) (p : CallPayload)
    (id : String) (hid : p.vapi_call_id = some (some id)) :
    (∀ r₀, t.find? (fun r => r.vapi_call_id == some id) = some r₀ →
      (upsertCall t p).find? (fun r => r.vapi_call_id == some id) =
        some (mergeRow r₀ p)) ∧
    (t.find? (fun r => r.vapi_call_id == some id) = none →
      (upsertCall t p).find? (fun r => r.vapi_call_id == some id) =
        some (rowOfPayload p)) ∧
    (∀ r f, payloadField f p = none → rowField f (mergeRow r p) = rowField f r) ∧
    (∀ r f w, payloadField f p = some w → rowField f (mergeRow r p) = w) := by
  refine ⟨?_, ?_, ?_, ?_⟩
  · intro r₀ hfind
    rw [upsertCall_eq_upsertRows t p id hid]
    induction t with
    | nil => simp at hfind
    | cons r rs ih =>
      by_cases hr : r.vapi_call_id = some id
      · have heq : r₀ = r := by
          rw [List.find?_cons_of_pos _ (by simp [hr])] at hfind
          exact (Option.some.inj hfind).symm
        subst heq
        have hrw : upsertRows id p (r₀ :: rs) = mergeRow r₀ p :: rs := by
          simp [upsertRows, hr]
        rw [hrw]
        exact List.find?_cons_of_pos _ (by simp [mergeRow_vapi_call_id r₀ p id hid])
      · rw [List.find?_cons_of_neg _ (by simp [hr])] at hfind
        have hrw : upsertRows id p (r :: rs) = r :: upsertRows id p rs := by
          simp [upsertRows, hr]
        rw [hrw, List.find?_cons_of_neg _ (by simp [hr])]
        exact ih hfind
  · intro hnone
    rw [upsertCall_eq_upsertRows t p id hid]
    induction t with
    | nil =>
      show List.find? _ [rowOfPayload p] = some (rowOfPayload p)
      exact List.find?_cons_of_pos _ (by simp [rowOfPayload_vapi_call_id p id hid])
    | cons r rs ih =>
      by_cases hr : r.vapi_call_id = some id
      · rw [List.find?_cons_of_pos _ (by simp [hr])] at hnone
        exact absurd hnone (by simp)
      · rw [List.find?_cons_of_neg _ (by simp [hr])] at hnone
        have hrw : upsertRows id p (r :: rs) = r :: upsertRows id p rs := by
          simp [upsertRows, hr]
        rw [hrw, List.find?_cons_of_neg _ (by simp [hr])]
        exact ih hnone
  · intro r f hf
    cases f <;>
      (simp only [payloadField, Option.map_eq_none'] at hf
       simp [rowField, mergeRow, hf])
  · intro r f w hf
    cases f <;>
      (simp only [payloadField, Option.map_eq_some'] at hf
       obtain ⟨a, ha, rfl⟩ := hf
       simp [rowField, mergeRow, ha])

/-- C4 witness: the amended theorem applied at the one-row table produced by
the first status update and the null-carrying second update. -/
theorem upsertCall_merge_per_supplied_field_witness :
    (upsertCall (upsertCall [] (statusUpdatePayload "biz-1" callA (some "ended")))
        (statusUpdatePayload "biz-1" callA2 (some "in-progress"))).find?
        (fun r => r.vapi_call_id == some "call-1") =
      some (mergeRow { business_id := some "biz-1", vapi_call_id := some "call-1"
                       customer_phone := some "+15557654321"
                       from_phone := some "+15557654321"
                       to_phone := some "+15551234567", status := some "completed"
                       direction := some "inbound", started_at := some 100
                       metadata := some (Meta.vapiStatus (some "ended")) }
             (statusUpdatePayload "biz-1" callA2 (some "in-progress"))) :=
  (upsertCall_merge_per_supplied_field
      (upsertCall [] (statusUpdatePayload "biz-1" callA (some "ended")))
      (statusUpdatePayload "biz-1" callA2 (some "in-progress")) "call-1" rfl).1
    _ (by decide)

/-! ## C8 — finalization is idempotent -/

/-- C8: processing the same end-of-call report twice leaves exactly the
stored table that processing it once leaves — the second upsert sets every
supplied column (status, ended_at, duration_seconds, summary, sentiment,
intent, full_transcript, ...) to the value it already has and changes no
other row or column. -/
theorem finalizeCall_idempotent (table : List CallRow) (businessId : String)
    (call : CallInfo) (endedReason summary transcript recordingUrl : Option String)
    (analysis : Option Analysis) (id : String) (hid : call.id = some id) :
    upsertCall
        (upsertCall table
          (endOfCallPayload businessId call endedReason summary transcript recordingUrl analysis))
        (endOfCallPayload businessId call endedReason summary transcript recordingUrl analysis) =
      upsertCall table
        (endOfCallPayload businessId call endedReason summary transcript recordingUrl analysis) := by
  have hpid : (endOfCallPayload businessId call endedReason summary transcript
      recordingUrl analysis).vapi_call_id = some (some id) := by
    simp [endOfCallPayload, jfieldOfOpt, hid]
  rw [upsertCall_eq_upsertRows _ _ id hpid, upsertCall_eq_upsertRows _ _ id hpid]
  exact upsertRows_upsertRows id _ hpid table

/-- C8 witness: the idempotence theorem applied at an empty table and a
concrete report for `callA`. -/
theorem finalizeCall_idempotent_witness :
    upsertCall
        (upsertCall []
          (endOfCallPayload "biz-1" callA (some "customer-ended-call")
            (some "Asked to book a cleaning") (some "AI: hello...") none
            (some { sentiment := some "positive" })))
        (endOfCallPayload "biz-1" callA (some "customer-ended-call")
          (some "Asked to book a cleaning") (some "AI: hello...") none
          (some { sentiment := some "positive" })) =
      upsertCall []
        (endOfCallPayload "biz-1" callA (some "customer-ended-call")
          (some "Asked to book a cleaning") (some "AI: hello...") none
          (some { sentiment := some "positive" })) :=
  finalizeCall_idempotent [] "biz-1" callA (some "customer-ended-call")
    (some "Asked to book a cleaning") (some "AI: hello...") none
    (some { sentiment := some "positive" }) "call-1" rfl

/-! ## C6 — the booking-function gate is dead code -/

/-- C6: a tenant with the scheduling feature flag on (`calcom_enabled=true`)
and stored credentials still receives the default assistant configuration
with no function schemas: the gate reads `calcomIntegration.access_token`,
but `getCalcomCredentials` returns only `calcom_`-prefixed fields, so the
gate never passes (and `calcom_enabled` is never consulted at all). -/
theorem assistantRequest_booking_gate_dead :
    bizCalcom.calcom_enabled = true ∧
    bizCalcom.calcom_access_token = some "tok-123" ∧
    jsTruthy (jsGet [("calcom_access_token", JVal.str "tok-123")] "calcom_access_token") = true ∧
    handleAssistantRequest {} dbCalcom assistantReqMsg =
      ⟨200, .assistant getDefaultAssistantConfig⟩ ∧
    getDefaultAssistantConfig.functions = [] ∧
    (getAssistantConfigWithBooking bizCalcom).functions = ["checkAvailability", "createBooking"] :=
  ⟨rfl, rfl, rfl, rfl, rfl, rfl⟩

/-! ## C3 — the digest window is a fixed 24 hours, not the previous local day -/

/-- C3: on the day after the 2024 spring-forward in America/New_York, the
window computed for a tick at 2024-03-11T12:00:00Z (local 08:00) ends at
today's local midnight (2024-03-11T04:00:00Z) but starts exactly 24 hours
earlier at 2024-03-10T04:00:00Z, whose local wall clock is 2024-03-09 23:00 —
not the previous day's local midnight (2024-03-10T05:00:00Z, a 23-hour
window), which is what the spec and the repo's own requirements (previous
local-day summary) call for. -/
theorem previousDayRange_not_previous_local_day :
    getPreviousDayRangeUtc tzNewYork2024 dstTick = ⟨1710043200, 1710129600⟩ ∧
    getTimeZoneParts tzNewYork2024 dstTick = ⟨2024, 3, 11, 8, 0, 0⟩ ∧
    getTimeZoneParts tzNewYork2024 1710129600 = ⟨2024, 3, 11, 0, 0, 0⟩ ∧
    getTimeZoneParts tzNewYork2024 1710043200 = ⟨2024, 3, 9, 23, 0, 0⟩ ∧
    getTimeZoneParts tzNewYork2024 1710046800 = ⟨2024, 3, 10, 0, 0, 0⟩ ∧
    (1710129600 - 1710043200 : Int) = 86400 ∧
    (1710129600 - 1710046800 : Int) = 82800 :=
  ⟨rfl, rfl, rfl, rfl, rfl, rfl, rfl⟩

/-! ## C2 — at most one digest per tenant per local day -/

/-- Once `last_digest_sent_at` falls on today's local calendar date, the
guard refuses to send. -/
theorem shouldSend_false_of_sameDay (tz : Tz) (b : Business) (now x : Int)
    (hb : b.last_digest_sent_at = some x)
    (hd : getLocalDateKey tz x = getLocalDateKey tz now) :
    shouldSendDigestNow tz b now = false := by
  unfold shouldSendDigestNow
  rcases hp : parseDigestTime (jsOrStr b.digest_time_local "08:00") with _ | ⟨th, tm⟩
  · rfl
  · simp only [hb, hd]
    split
    · simp
    · rfl

/-- A tick that reports a send produced exactly the marked business row. -/
theorem digestTick_sent (zones : String → Tz) (b : Business) (now : Int)
    (preOk emailOk : Bool) (b' : Business)
    (h : digestTick zones b now preOk emailOk = (b', true)) :
    b' = markDigestSent b now ∧
      shouldSendDigestNow (zones (effectiveTimeZoneName b)) b now = true := by
  unfold digestTick at h
  by_cases hs : shouldSendDigestNow (zones (effectiveTimeZoneName b)) b now = true
  · cases preOk <;> cases emailOk <;> simp [hs] at h
    exact ⟨h.symm, hs⟩
  · cases preOk <;> cases emailOk <;> simp [hs] at h

/-- A tick that reports no send left the business row unchanged. -/
theorem digestTick_not_sent (zones : String → Tz) (b : Business) (now : Int)
    (preOk emailOk : Bool) (b' : Business)
    (h : digestTick zones b now preOk emailOk = (b', false)) :
    b' = b := by
  unfold digestTick at h
  by_cases hs : shouldSendDigestNow (zones (effectiveTimeZoneName b)) b now = true <;>
    cases preOk <;> cases emailOk <;> simp [hs] at h <;> exact h.symm

/-- Marking a digest sent does not change the effective timezone. -/
theorem effectiveTimeZoneName_markDigestSent (b : Business) (now : Int) :
    effectiveTimeZoneName (markDigestSent b now) = effectiveTimeZoneName b := rfl

/-- After a send has been marked on day `d`, a run of further ticks on day
`d` sends nothing and changes nothing. -/
theorem runDigestTicks_sameDay_stuck (zones : String → Tz) (ticks : List (Int × Bool × Bool))
    (b : Business) (x : Int) (d : LocalDate)
    (hb : b.last_digest_sent_at = some x)
    (hx : getLocalDateKey (zones (effectiveTimeZoneName b)) x = d)
    (hall : ∀ y ∈ ticks, getLocalDateKey (zones (effectiveTimeZoneName b)) y.1 = d) :
    runDigestTicks zones b ticks = (b, 0) := by
  induction ticks with
  | nil => rfl
  | cons y rest ih =>
    have hsend : shouldSendDigestNow (zones (effectiveTimeZoneName b)) b y.1 = false :=
      shouldSend_false_of_sameDay _ b y.1 x hb
        (hx.trans (hall y (List.mem_cons_self y rest)).symm)
    have hstep : digestTick zones b y.1 y.2.1 y.2.2 = (b, false) := by
      simp [digestTick, hsend]
    have hrest := ih (fun y hy => hall y (List.mem_cons_of_mem _ hy))
    simp [runDigestTicks, hstep, hrest]

/-- C2: for a digest-enabled, active tenant, any number of sequential
scheduler ticks whose instants all fall on one local calendar day of the
tenant's effective timezone send at most one digest email, and
`last_digest_sent_at` is written at most once (it is unchanged whenever no
email was sent). -/
theorem digest_at_most_once_per_day (zones : String → Tz) (b : Business)
    (ticks : List (Int × Bool × Bool)) (d : LocalDate)
    (hen : b.digest_enabled = true) (hact : b.active = true)
    (hall : ∀ y ∈ ticks, getLocalDateKey (zones (effectiveTimeZoneName b)) y.1 = d) :
    (runDigestTicks zones b ticks).2 ≤ 1 ∧
      ((runDigestTicks zones b ticks).2 = 0 →
        (runDigestTicks zones b ticks).1.last_digest_sent_at = b.last_digest_sent_at) := by
  induction ticks generalizing b with
  | nil => exact ⟨Nat.zero_le 1, fun _ => rfl⟩
  | cons y rest ih =>
    rcases hstep : digestTick zones b y.1 y.2.1 y.2.2 with ⟨b', sent⟩
    cases sent with
    | true =>
      obtain ⟨hb', _⟩ := digestTick_sent zones b y.1 y.2.1 y.2.2 b' hstep
      have hmark : b'.last_digest_sent_at = some y.1 := by rw [hb']; rfl
      have htz : effectiveTimeZoneName b' = effectiveTimeZoneName b := by
        rw [hb']
        exact effectiveTimeZoneName_markDigestSent b y.1
      have hrest : runDigestTicks zones b' rest = (b', 0) := by
        refine runDigestTicks_sameDay_stuck zones rest b' y.1 d hmark ?_ ?_
        · rw [htz]; exact hall y (List.mem_cons_self y rest)
        · intro z hz; rw [htz]; exact hall z (List.mem_cons_of_mem _ hz)
      refine ⟨?_, ?_⟩ <;> simp [runDigestTicks, hstep, hrest]
    | false =>
      have hb' : b' = b := digestTick_not_sent zones b y.1 y.2.1 y.2.2 b' hstep
      subst hb'
      obtain ⟨ih1, ih2⟩ := ih b' hen hact (fun z hz => hall z (List.mem_cons_of_mem _ hz))
      constructor
      · simpa [runDigestTicks, hstep] using ih1
      · intro h0
        have : (runDigestTicks zones b' rest).2 = 0 := by
          simpa [runDigestTicks, hstep] using h0
        simpa [runDigestTicks, hstep] using ih2 this

/-- C2 witness: the theorem applied to the default-time tenant and two ticks
on 2024-01-15 (UTC), the first of which sends. -/
theorem digest_at_most_once_per_day_witness :
    (runDigestTicks zonesUtc bizDigestW ticksW).2 ≤ 1 ∧
      ((runDigestTicks zonesUtc bizDigestW ticksW).2 = 0 →
        (runDigestTicks zonesUtc bizDigestW ticksW).1.last_digest_sent_at =
          bizDigestW.last_digest_sent_at) :=
  digest_at_most_once_per_day zonesUtc bizDigestW ticksW ⟨2024, 1, 15⟩ rfl rfl (by decide)

/-! ## C9 — per-call sequence numbers are pairwise distinct -/

/-- Setting a key makes it readable. -/
theorem seqLookup_seqSet_self (m : List (Option String × Nat)) (k : Option String) (v : Nat) :
    seqLookup (seqSet m k v) k = some v := by
  induction m with
  | nil => simp [seqSet, seqLookup]
  | cons e rest ih =>
    by_cases he : e.1 = k
    · simp [seqSet, seqLookup, he]
    · simp [seqSet, seqLookup, he, ih]

/-- Setting a key leaves other keys unchanged. -/
theorem seqLookup_seqSet_ne (m : List (Option String × Nat)) (k c : Option String) (v : Nat)
    (h : c ≠ k) : seqLookup (seqSet m k v) c = seqLookup m c := by
  have hkc : k ≠ c := fun e => h e.symm
  induction m with
  | nil => simp [seqSet, seqLookup, hkc]
  | cons e rest ih =>
    by_cases he : e.1 = k
    · simp [seqSet, seqLookup, he, hkc]
    · by_cases hc : e.1 = c
      · simp [seqSet, seqLookup, he, hc, h]
      · simp [seqSet, seqLookup, he, hc, ih]

/-- The ensure-then-read dance of `handleTranscript` reads exactly the
defaulted counter. -/
theorem seqLookup_ensure (m : List (Option String × Nat)) (k : Option String) :
    (seqLookup (if (seqLookup m k).isNone then seqSet m k 0 else m) k).getD 0 =
      (seqLookup m k).getD 0 := by
  cases h : seqLookup m k with
  | none => simp [h, seqLookup_seqSet_self]
  | some n => simp [h]

/-- The ensure step leaves other keys' defaulted counters unchanged. -/
theorem seqLookup_ensure_ne (m : List (Option String × Nat)) (k c : Option String)
    (h : c ≠ k) :
    seqLookup (if (seqLookup m k).isNone then seqSet m k 0 else m) c = seqLookup m c := by
  cases hk : seqLookup m k with
  | none => simp [hk, seqLookup_seqSet_ne m k c 0 h]
  | some n => simp [hk]

/-- Appending one turn appends its sequence number exactly for its call. -/
theorem turnSeqs_append_one (ts : List TurnRow) (t : TurnRow) (c : Option String) :
    turnSeqs (ts ++ [t]) c =
      turnSeqs ts c ++ (if t.callKey = c then [t.seq] else []) := by
  by_cases h : t.callKey = c
  · simp [turnSeqs, List.filter_append, h]
  · simp [turnSeqs, List.filter_append, h]

/-- The fresh process state satisfies the invariant. -/
theorem seqInv_init : seqInv {} := fun _ => rfl

/-- One transcript event preserves the invariant. -/
theorem seqInv_step (st : SeqState) (ev : TranscriptEvent) (h : seqInv st) :
    seqInv (handleTranscriptStep st ev) := by
  intro c
  show turnSeqs (st.turns ++ [_]) c = List.range ((seqLookup (seqSet _ ev.call.id _) c).getD 0)
  rw [turnSeqs_append_one]
  by_cases hc : ev.call.id = c
  · subst hc
    rw [if_pos rfl, seqLookup_seqSet_self, Option.getD_some,
      seqLookup_ensure st.seqMap ev.call.id, h ev.call.id]
    exact (List.range_succ _).symm
  · rw [if_neg hc, List.append_nil,
      seqLookup_seqSet_ne _ _ _ _ (fun e => hc e.symm),
      seqLookup_ensure_ne _ _ _ (fun e => hc e.symm)]
    exact h c

/-- Running a list of transcript events preserves the invariant. -/
theorem seqInv_run (evs : List TranscriptEvent) (st : SeqState) (h : seqInv st) :
    seqInv (runTranscriptEvents st evs) := by
  induction evs generalizing st with
  | nil => exact h
  | cons ev rest ih => exact ih _ (seqInv_step st ev h)

/-- C9: after any sequence of transcript events delivered sequentially within
one process lifetime (fresh counter map), the sequence numbers stored for any
one call are pairwise distinct. -/
theorem transcript_sequence_numbers_distinct (evs : List TranscriptEvent)
    (c : Option String) :
    (turnSeqs (runTranscriptEvents {} evs).turns c).Nodup := by
  rw [seqInv_run evs {} seqInv_init c]
  exact List.nodup_range _

/-! ## C10 — stored roles are only `user` / `assistant` -/

/-- One transcript event preserves `rolesOk`. -/
theorem rolesOk_step (st : SeqState) (ev : TranscriptEvent) (h : rolesOk st.turns) :
    rolesOk (handleTranscriptStep st ev).turns := by
  intro turn hmem
  unfold handleTranscriptStep at hmem
  simp only [List.mem_append, List.mem_singleton] at hmem
  rcases hmem with hold | hnew
  · exact h turn hold
  · subst hnew
    by_cases hr : (ev.role == some "user") = true
    · left; simp [hr]
    · right; simp [hr]

/-- Running a list of transcript events preserves `rolesOk`. -/
theorem rolesOk_run (evs : List TranscriptEvent) (st : SeqState) (h : rolesOk st.turns) :
    rolesOk (runTranscriptEvents st evs).turns := by
  induction evs generalizing st with
  | nil => exact h
  | cons ev rest ih => exact ih _ (rolesOk_step st ev h)

/-- C10: the turn a transcript event appends has role `user` exactly when the
incoming role is `'user'` and `assistant` for every other incoming role; and
no turn stored by the webhook path (from a fresh process state) ever has role
`system`, even though the data model admits it. -/
theorem transcript_role_mapping (st : SeqState) (ev : TranscriptEvent) (turn : TurnRow)
    (hmem : turn ∈ (handleTranscriptStep st ev).turns) (hnew : turn ∉ st.turns)
    (evs : List TranscriptEvent) (turn' : TurnRow)
    (hmem' : turn' ∈ (runTranscriptEvents {} evs).turns) :
    ((turn.role = "user" ↔ ev.role = some "user") ∧ turn.role ≠ "system") ∧
      turn'.role ≠ "system" := by
  constructor
  · have hturn : turn =
        { callKey := ev.call.id
          role := if ev.role == some "user" then "user" else "assistant"
          text := ev.transcript
          seq := (seqLookup (if (seqLookup st.seqMap ev.call.id).isNone then
            seqSet st.seqMap ev.call.id 0 else st.seqMap) ev.call.id).getD 0 } := by
      unfold handleTranscriptStep at hmem
      simp only [List.mem_append, List.mem_singleton] at hmem
      rcases hmem with hold | hnew'
      · exact absurd hold hnew
      · exact hnew'
    subst hturn
    by_cases hr : (ev.role == some "user") = true
    · have hev : ev.role = some "user" := by simpa using hr
      simp [hr, hev]
    · have hev : ev.role ≠ some "user" := by simpa using hr
      simp [hr, hev]
  · rcases rolesOk_run evs {} (fun _ h => absurd h (List.not_mem_nil _)) turn' hmem' with h | h <;>
      simp [h]

/-- C10 witness: the role-mapping theorem applied to a concrete non-user
transcript event from a fresh state. -/
theorem transcript_role_mapping_witness :
    ((turnW.role = "user" ↔ transcriptEvW.role = some "user") ∧ turnW.role ≠ "system") ∧
      turnW.role ≠ "system" :=
  transcript_role_mapping {} transcriptEvW turnW (by decide) (by decide)
    [transcriptEvW] turnW (by decide)

/-! ## C5 — the router acknowledges with 200, except one escape hatch -/

/-- C5 counterexample: a POSTed `function-call` envelope whose `functionCall`
object is missing throws in `handleFunctionCall` before its try block; the
top-level catch answers HTTP 500, not 200. -/
theorem webhook_malformed_function_call_500 :
    (vapiWebhook {} {} 0 "POST" (.object (some malformedFnCallMsg))).response.status = 500 ∧
    (vapiWebhook {} {} 0 "POST" (.object (some malformedFnCallMsg))).response.body =
      .internalError :=
  ⟨rfl, rfl⟩

/-- Every assistant-request branch answers 200. -/
theorem status_handleAssistantRequest (f : Faults) (db : Db) (m : VapiMessage) :
    (handleAssistantRequest f db m).status = 200 := by
  unfold handleAssistantRequest
  cases getBusinessByPhone db (m.call.bind (·.phoneNumber)) with
  | none => rfl
  | some b =>
    by_cases hf : f.upsertFails = true
    · simp [hf]
    · simp [hf]

/-- Every status-update branch answers 200. -/
theorem status_handleStatusUpdate (f : Faults) (db : Db) (m : VapiMessage) :
    (handleStatusUpdate f db m).status = 200 := by
  unfold handleStatusUpdate
  cases getBusinessByPhone db (m.call.bind (·.phoneNumber)) with
  | none => rfl
  | some b =>
    by_cases hf : f.upsertFails = true
    · simp [hf]
    · simp [hf]

/-- Every transcript branch answers 200. -/
theorem status_handleTranscript (f : Faults) (db : Db) (m : VapiMessage) :
    (handleTranscript f db m).status = 200 := by
  unfold handleTranscript
  cases getBusinessByPhone db (m.call.bind (·.phoneNumber)) with
  | none => rfl
  | some b =>
    by_cases hf : (f.upsertFails || f.insertTranscriptFails) = true
    · simp [hf]
    · simp [hf]

/-- Every end-of-call-report branch answers 200. -/
theorem status_handleEndOfCallReport (f : Faults) (db : Db) (m : VapiMessage) :
    (handleEndOfCallReport f db m).status = 200 := by
  unfold handleEndOfCallReport
  cases getBusinessByPhone db (m.call.bind (·.phoneNumber)) with
  | none => rfl
  | some b =>
    by_cases hf : f.upsertFails = true
    · simp [hf]
    · simp [hf]

/-- Every booking branch answers 200. -/
theorem status_handleCreateBooking (f : Faults) (db : Db) (now : Int) (b : Business)
    (c : Option CallInfo) (ps : FnParams) :
    (handleCreateBooking f db now b c ps).1.status = 200 := by
  unfold handleCreateBooking
  by_cases ho :
      (createCalcomBooking db now b.id ps.dateTime f.refreshFails f.calcomFails).ok = true
  · by_cases hf : (f.upsertFails || f.dbBookingFails) = true <;> simp [ho, hf]
  · simp [ho]

/-- With `functionCall` present the function-call handler returns normally,
and with status 200. -/
theorem handleFunctionCall_ok_status (f : Faults) (db : Db) (now : Int)
    (m : VapiMessage) (fc : FunctionCallInfo) (h : m.functionCall = some fc) :
    ∃ out, handleFunctionCall f db now m = .ok out ∧ out.1.status = 200 := by
  unfold handleFunctionCall
  rw [h]
  cases hb : getBusinessByPhone db (m.call.bind (·.phoneNumber)) with
  | none => exact ⟨(⟨200, .fnError⟩, false), by simp, rfl⟩
  | some b =>
    by_cases h1 : (fc.name == some "checkAvailability") = true
    · exact ⟨(⟨200, if f.availabilityFails = true then .fnError else .fnOk⟩, false),
        by simp [h1], rfl⟩
    · by_cases h2 : (fc.name == some "createBooking") = true
      · exact ⟨handleCreateBooking f db now b m.call fc.parameters, by simp [h1, h2],
          status_handleCreateBooking f db now b m.call fc.parameters⟩
      · exact ⟨(⟨200, .fnError⟩, false), by simp [h1, h2], rfl⟩

/-- C5 as amended: for every POSTed envelope whose body is an object, the
router answers HTTP 200 whatever the event type and whatever internal
persistence or provider steps fail — except that a `function-call` envelope
missing its `functionCall` object escapes the handler's try block and is
answered 500 by the top-level catch (and a non-object body likewise). -/
theorem webhook_posts_ack_200 (f : Faults) (db : Db) (now : Int)
    (msgOpt : Option VapiMessage)
    (hfc : ∀ m, msgOpt = some m → m.type = some "function-call" → m.functionCall ≠ none) :
    (vapiWebhook f db now "POST" (.object msgOpt)).response.status = 200 := by
  cases msgOpt with
  | none => rfl
  | some m =>
    by_cases h1 : m.type.getD "unknown" = "assistant-request"
    · simp [vapiWebhook, h1, status_handleAssistantRequest]
    · by_cases h2 : m.type.getD "unknown" = "status-update"
      · simp [vapiWebhook, h1, h2, status_handleStatusUpdate]
      · by_cases h3 : m.type.getD "unknown" = "transcript"
        · simp [vapiWebhook, h1, h2, h3, status_handleTranscript]
        · by_cases h4 : m.type.getD "unknown" = "function-call"
          · have hm : m.type = some "function-call" := by
              cases hmt : m.type with
              | none => rw [hmt] at h4; exact absurd h4 (by decide)
              | some ty => rw [hmt] at h4; simp at h4; rw [h4]
            rcases hfc' : m.functionCall with _ | fc
            · exact absurd hfc' (hfc m rfl hm)
            · obtain ⟨out, ho, hs⟩ := handleFunctionCall_ok_status f db now m fc hfc'
              simp [vapiWebhook, h1, h2, h3, h4, ho, hs]
          · by_cases h5 : m.type.getD "unknown" = "end-of-call-report"
            · simp [vapiWebhook, h1, h2, h3, h4, h5, status_handleEndOfCallReport]
            · simp [vapiWebhook, h1, h2, h3, h4, h5]

/-- C5 witness: the amended theorem applied to a well-formed createBooking
function-call envelope. -/
theorem webhook_posts_ack_200_witness :
    (vapiWebhook {} {} 0 "POST" (.object (some fnCallMsgW))).response.status = 200 :=
  webhook_posts_ack_200 {} {} 0 (some fnCallMsgW)
    (fun m hm _ => by cases hm; simp [fnCallMsgW])

/-! ## C7 — the function-call path never validates the start time -/

/-- C7 counterexample: a createBooking function call with a start strictly in
the past (instant 500 at current time 1000), for a tenant with a configured
access token and default event type, reaches the scheduling provider's
booking-creation operation — and with a provider that accepts, the handler
even answers with the 200 `{ result }` success response, not `{ error }`. -/
theorem createBooking_past_reaches_provider :
    ((500 : Int) < 1000) ∧
    handleCreateBooking {} dbCalcom 1000 bizCalcom none { dateTime := some 500 } =
      (⟨200, .fnOk⟩, true) :=
  ⟨by decide, rfl⟩

/-- `createCalcomBooking` never inspects the start it forwards. -/
theorem createCalcomBooking_start_irrelevant (db : Db) (now : Int) (businessId : String)
    (start start' : Option Int) (refreshFails providerFails : Bool) :
    createCalcomBooking db now businessId start refreshFails providerFails =
      createCalcomBooking db now businessId start' refreshFails providerFails := rfl

/-- The provider-contact component of the booking handler is exactly the
outcome of `createCalcomBooking`. -/
theorem snd_handleCreateBooking (f : Faults) (db : Db) (now : Int) (b : Business)
    (c : Option CallInfo) (ps : FnParams) :
    (handleCreateBooking f db now b c ps).2 =
      (createCalcomBooking db now b.id ps.dateTime f.refreshFails f.calcomFails).providerCalled := by
  unfold handleCreateBooking
  by_cases ho :
      (createCalcomBooking db now b.id ps.dateTime f.refreshFails f.calcomFails).ok = true
  · by_cases hf : (f.upsertFails || f.dbBookingFails) = true <;> simp [ho, hf]
  · simp [ho]

/-- Reading the selected credentials row at its own column names. -/
theorem jsGet_calcom_event_type (b : Business) :
    jsGet (calcomCredentialsRow b) "calcom_event_type_id" =
      some (jvalOfOptInt b.calcom_event_type_id) := rfl

/-- Reading the selected credentials row at its own column names. -/
theorem jsGet_calcom_access_token (b : Business) :
    jsGet (calcomCredentialsRow b) "calcom_access_token" =
      some (jvalOfOptStr b.calcom_access_token) := rfl

/-- C7 as amended: the function-call path performs no startTime validation.
Whether the scheduling provider's booking-creation operation is contacted
does not depend on `dateTime` at all; in particular, for a tenant whose
credentials row resolves with a truthy default event type and access token,
and whose token refresh (if one is needed) succeeds, the provider is
contacted for every `dateTime` — past, future or malformed alike.  (The
standalone endpoint api/calcom/book.js does reject a past or malformed start
with a 400 before contacting the provider, but the function-call path never
goes through it.) -/
theorem createBooking_no_local_validation (f : Faults) (db : Db) (now : Int)
    (b : Business) (c : Option CallInfo) (ps ps' : FnParams) :
    (handleCreateBooking f db now b c ps).2 = (handleCreateBooking f db now b c ps').2 ∧
    (db.businesses.find? (fun x => x.id == b.id) = some b →
      ∀ et tok, b.calcom_event_type_id = some et → et ≠ 0 →
        b.calcom_access_token = some tok → tok ≠ "" →
        f.refreshFails = false →
        (handleCreateBooking f db now b c ps).2 = true) := by
  constructor
  · rw [snd_handleCreateBooking, snd_handleCreateBooking,
      createCalcomBooking_start_irrelevant db now b.id ps.dateTime ps'.dateTime]
  · intro hfind et tok het het0 htok htok0 href
    have hgc : getCalcomCredentials db b.id = some (calcomCredentialsRow b) := by
      unfold getCalcomCredentials
      rw [hfind]
      rfl
    rw [snd_handleCreateBooking]
    unfold createCalcomBooking
    rw [hgc]
    simp only [jsGet_calcom_event_type, jsGet_calcom_access_token, het, htok,
      jvalOfOptInt, jvalOfOptStr, jsTruthy, href]
    rw [if_pos (by simpa using het0), if_pos (by simpa using htok0)]
    simp only [Bool.and_false, Bool.false_eq_true, if_false]
    by_cases hpf : f.calcomFails = true <;> simp [hpf]

/-- C7 witness: the amended theorem applied to the configured tenant
`bizCalcom`, a past start (500 at time 1000) and a future start (1500). -/
theorem createBooking_no_local_validation_witness :
    (handleCreateBooking {} dbCalcom 1000 bizCalcom none { dateTime := some 500 }).2 =
      (handleCreateBooking {} dbCalcom 1000 bizCalcom none { dateTime := some 1500 }).2 ∧
    (handleCreateBooking {} dbCalcom 1000 bizCalcom none { dateTime := some 500 }).2 = true :=
  ⟨(createBooking_no_local_validation {} dbCalcom 1000 bizCalcom none
      { dateTime := some 500 } { dateTime := some 1500 }).1,
    (createBooking_no_local_validation {} dbCalcom 1000 bizCalcom none
      { dateTime := some 500 } { dateTime := some 1500 }).2 rfl 7 "tok-123" rfl
      (by decide) rfl (by decide) rfl⟩

end MCR
